import Mathlib

/-!
Verification of the order-creation core of the `enterprise-crud` ticketing
backend (Go).  The definitions below are a shallow embedding of the Go source:

* `internal/domain/order` entity, errors and service
  (`Order`, `OrderError`, `OrderService.CreateOrder`, `GetOrderByID`,
  `GetOrdersByUserID`, `GetOrdersByEventID`, `UpdateOrderStatus`,
  `DeleteOrder`, `isValidStatus`);
* `internal/infrastructure/database` order repository
  (`GetByID`, `GetByUserID`, `GetByEventID`, `Update`, `Delete`,
  `CreateWithTx`, `GetEventWithTx`, `UpdateEventTicketsWithTx`);
* `internal/domain/event` entity (`Event`).

UUIDs are modelled as `Nat`, Go `int` as `Int`, Go `string` as `String`,
and the monetary `float64` fields as `Rat` (exact arithmetic; the claims
about IEEE-754 rounding are treated separately).  The database is a pair of
lists of rows; gorm's `Transaction` is modelled as run-body-then-commit with
rollback (the original state is returned) whenever the body returns an
error.  Storage-level failures of the two writes inside the transaction are
modelled by two Boolean fault flags.
-/

/-- Event row, from `internal/domain/event` `type Event struct` (part_009):
id, venue_id, organizer_id, title, description, event_date, ticket_price,
available_tickets, total_tickets, status, created_at, updated_at. -/
structure Event where
  id : Nat
  venueId : Nat
  organizerId : Nat
  title : String
  description : String
  eventDate : Nat
  ticketPrice : Rat
  availableTickets : Int
  totalTickets : Int
  status : String
  createdAt : Nat
  updatedAt : Nat
  deriving DecidableEq, Repr

/-- Order row, from `internal/domain/order` `type Order struct` (part_012). -/
structure Order where
  id : Nat
  userId : Nat
  eventId : Nat
  quantity : Int
  totalAmount : Rat
  status : String
  createdAt : Nat
  deriving DecidableEq, Repr

/-- Order status constants from part_012. -/
def StatusPending : String := "PENDING"

/-- Order status constant `StatusCompleted` from part_012. -/
def StatusCompleted : String := "COMPLETED"

/-- Order status constant `StatusFailed` from part_012. -/
def StatusFailed : String := "FAILED"

/-- Projection of an event used during order processing, from
`type EventInfo struct` in `internal/domain/order/repository.go` (part_011). -/
structure EventInfo where
  id : Nat
  title : String
  ticketPrice : Rat
  availableTickets : Int
  totalTickets : Int
  status : String
  deriving DecidableEq, Repr

/-- Domain errors of the order package: the Go code builds an `OrderError`
with a distinguishing `Code` string plus the data interpolated into the
message (part_010).  Each constructor here is one `New...Error` constructor
together with the data it carries. -/
inductive OrderError where
  | orderNotFound (id : Nat)
  | eventNotFound (eventID : Nat)
  | insufficientTickets (requested available : Int)
  | invalidQuantity (quantity : Int)
  | eventNotActive (eventID : Nat) (status : String)
  | validationError (message : String)
  | orderCreationFailed
  deriving DecidableEq, Repr

/-- Database state: the `events` and `orders` tables. -/
structure DB where
  events : List Event
  orders : List Order
  deriving DecidableEq, Repr

/-- Storage operations performed by the service, recorded as a trace so that
"never touches storage" claims are expressible. -/
inductive StorageOp where
  | beginTx
  | readEvent (eventID : Nat)
  | insertOrder (orderId : Nat)
  | updateEventTickets (eventID : Nat) (newAvailableTickets : Int)
  deriving DecidableEq, Repr

/-- First event row matching the id: `tx.Where("id = ?", eventID).First`. -/
def findEventIn (events : List Event) (eventID : Nat) : Option Event :=
  events.find? (fun e => e.id == eventID)

/-- EventInfo literal built by `GetEventWithTx` from the event row
(part_020 lines 100-107). -/
def toEventInfo (e : Event) : EventInfo :=
  { id := e.id, title := e.title, ticketPrice := e.ticketPrice,
    availableTickets := e.availableTickets, totalTickets := e.totalTickets,
    status := e.status }

/-- `OrderRepository.GetEventWithTx` (part_020 lines 90-108): point read of
the event row inside the transaction; `gorm.ErrRecordNotFound` is mapped to
`NewEventNotFoundError(eventID)`.  The read takes no row lock (no
`FOR UPDATE` clause appears anywhere in the repository). -/
def GetEventWithTx (db : DB) (eventID : Nat) : Except OrderError EventInfo :=
  match findEventIn db.events eventID with
  | none => .error (.eventNotFound eventID)
  | some e => .ok (toEventInfo e)

/-- `OrderRepository.CreateWithTx` (part_020 lines 32-38): insert of the
order row; `storageFails` models a storage-level failure of the insert. -/
def CreateWithTx (db : DB) (orderEntity : Order) (storageFails : Bool) :
    Except Unit DB :=
  if storageFails then .error ()
  else .ok { db with orders := db.orders ++ [orderEntity] }

/-- Errors of `UpdateEventTicketsWithTx`: a raw storage error or the
`RowsAffected == 0` case mapped to `NewEventNotFoundError`. -/
inductive TxUpdateError where
  | storage
  | eventNotFound (eventID : Nat)
  deriving DecidableEq, Repr

/-- The `Update("available_tickets", n)` write on every row matching the id
(part_020 lines 112-114).  gorm v2's `Update` automatically appends the
model's `UpdatedAt` field (AutoUpdateTime; the code does not use
`UpdateColumn`), so the real SET clause writes BOTH `available_tickets` and
`updated_at = now`; every other column is untouched. -/
def updateEventAvailable (events : List Event) (eventID : Nat)
    (newAvailableTickets : Int) (now : Nat) : List Event :=
  events.map (fun e =>
    if e.id == eventID then
      { e with availableTickets := newAvailableTickets, updatedAt := now }
    else e)

/-- `OrderRepository.UpdateEventTicketsWithTx` (part_020 lines 110-125):
writes the absolute value `newAvailableTickets` into the
`available_tickets` column of the event row (gorm stamping `updated_at`
with the transaction's clock `now` as well, per AutoUpdateTime);
`RowsAffected == 0` (no row with that id) surfaces
`NewEventNotFoundError`.  The write is NOT a conditional compare-and-set:
it stores whatever value the caller computed. -/
def UpdateEventTicketsWithTx (db : DB) (eventID : Nat)
    (newAvailableTickets : Int) (now : Nat) (storageFails : Bool) :
    Except TxUpdateError DB :=
  if storageFails then .error .storage
  else if db.events.any (fun e => e.id == eventID) then
    .ok { db with events :=
      updateEventAvailable db.events eventID newAvailableTickets now }
  else .error (.eventNotFound eventID)

/-- Order literal built inside `CreateOrder` (service lines of
event/service_test.go appendix): fresh id, the caller's ids, the requested
quantity, `totalAmount = ticketPrice * quantity`, status `PENDING`. -/
def mkPendingOrder (userID eventID : Nat) (quantity : Int) (ticketPrice : Rat)
    (newOrderId createdAt : Nat) : Order :=
  { id := newOrderId, userId := userID, eventId := eventID,
    quantity := quantity, totalAmount := ticketPrice * (quantity : Rat),
    status := StatusPending, createdAt := createdAt }

/-- Transactional body of `OrderService.CreateOrder` (the closure passed to
`s.db.WithContext(ctx).Transaction`, event/service_test.go appendix):
read the event, require status `ACTIVE`, require
`availableTickets >= quantity`, insert the pending order, write the new
absolute ticket count; any error from the two writes is wrapped as
`NewOrderCreationError`.  Returns the updated state together with the trace
of storage operations performed. -/
def createOrderTx (db : DB) (userID eventID : Nat) (quantity : Int)
    (newOrderId createdAt : Nat) (insertFails updateFails : Bool) :
    Except OrderError (DB × Order) × List StorageOp :=
  match GetEventWithTx db eventID with
  | .error e => (.error e, [.readEvent eventID])
  | .ok eventInfo =>
    if eventInfo.status ≠ "ACTIVE" then
      (.error (.eventNotActive eventID eventInfo.status), [.readEvent eventID])
    else if eventInfo.availableTickets < quantity then
      (.error (.insufficientTickets quantity eventInfo.availableTickets),
        [.readEvent eventID])
    else
      match CreateWithTx db
          (mkPendingOrder userID eventID quantity eventInfo.ticketPrice
            newOrderId createdAt) insertFails with
      | .error _ => (.error .orderCreationFailed,
          [.readEvent eventID, .insertOrder newOrderId])
      | .ok db1 =>
        match UpdateEventTicketsWithTx db1 eventID
            (eventInfo.availableTickets - quantity) createdAt updateFails with
        | .error _ => (.error .orderCreationFailed,
            [.readEvent eventID, .insertOrder newOrderId,
             .updateEventTickets eventID (eventInfo.availableTickets - quantity)])
        | .ok db2 => (.ok (db2,
              mkPendingOrder userID eventID quantity eventInfo.ticketPrice
                newOrderId createdAt),
            [.readEvent eventID, .insertOrder newOrderId,
             .updateEventTickets eventID (eventInfo.availableTickets - quantity)])

/-- Result of one `CreateOrder` call: the returned value or error, the
database state after the call, and the trace of storage operations. -/
structure CreateOrderResult where
  result : Except OrderError Order
  db : DB
  ops : List StorageOp
  deriving Repr

/-- `OrderService.CreateOrder`: quantity is validated before any
transaction is opened (`if quantity <= 0` guard); otherwise the
transactional body runs and gorm's `Transaction` commits its state on
success and rolls it back (the prior state is kept) when the body returns
an error. -/
def CreateOrder (db : DB) (userID eventID : Nat) (quantity : Int)
    (newOrderId createdAt : Nat) (insertFails updateFails : Bool) :
    CreateOrderResult :=
  if quantity ≤ 0 then
    { result := .error (.invalidQuantity quantity), db := db, ops := [] }
  else
    match createOrderTx db userID eventID quantity newOrderId createdAt
        insertFails updateFails with
    | (.ok (db2, newOrder), ops) =>
        { result := .ok newOrder, db := db2, ops := .beginTx :: ops }
    | (.error e, ops) =>
        { result := .error e, db := db, ops := .beginTx :: ops }

/-- First order row matching the id, as read by
`OrderRepository.GetByID`'s `Where("id = ?", id).First`. -/
def findOrderIn (orders : List Order) (id : Nat) : Option Order :=
  orders.find? (fun o => o.id == id)

/-- `OrderRepository.GetByID` (part_020 lines 41-50): point read of an
order row; `gorm.ErrRecordNotFound` is mapped to `NewOrderNotFoundError`. -/
def GetByID (db : DB) (id : Nat) : Except OrderError Order :=
  match findOrderIn db.orders id with
  | none => .error (.orderNotFound id)
  | some o => .ok o

/-- `OrderRepository.GetByUserID` (part_020 lines 52-59): range read with
`Where("user_id = ?", userID).Find`; gorm's `Find` reports NO error when no
row matches, it returns the empty slice. -/
def GetByUserID (db : DB) (userID : Nat) : Except OrderError (List Order) :=
  .ok (db.orders.filter (fun o => o.userId == userID))

/-- `OrderRepository.GetByEventID` (part_020 lines 61-68): range read with
`Where("event_id = ?", eventID).Find`; like `GetByUserID`, an empty result
is not an error. -/
def GetByEventID (db : DB) (eventID : Nat) : Except OrderError (List Order) :=
  .ok (db.orders.filter (fun o => o.eventId == eventID))

/-- `OrderRepository.Update` (part_020 lines 71-76): gorm `Save` of a row
whose primary key is set, i.e. an update of the row with that id (the
service only calls it on a row it has just read). -/
def Update (db : DB) (orderEntity : Order) : DB :=
  { db with orders := db.orders.map (fun o =>
      if o.id == orderEntity.id then orderEntity else o) }

/-- `OrderRepository.Delete` (part_020 lines 79-88): delete by id;
`RowsAffected == 0` is mapped to `NewOrderNotFoundError`. -/
def Delete (db : DB) (id : Nat) : Except OrderError DB :=
  let remaining := db.orders.filter (fun o => o.id != id)
  if remaining.length == db.orders.length then .error (.orderNotFound id)
  else .ok { db with orders := remaining }

/-- `OrderService.GetOrderByID`: forwards to the repository. -/
def GetOrderByID (db : DB) (id : Nat) : Except OrderError Order :=
  GetByID db id

/-- `OrderService.GetOrdersByUserID`: forwards to the repository. -/
def GetOrdersByUserID (db : DB) (userID : Nat) : Except OrderError (List Order) :=
  GetByUserID db userID

/-- `OrderService.GetOrdersByEventID`: forwards to the repository. -/
def GetOrdersByEventID (db : DB) (eventID : Nat) : Except OrderError (List Order) :=
  GetByEventID db eventID

/-- `isValidStatus` from the order service: membership in
`{PENDING, COMPLETED, FAILED}`. -/
def isValidStatus (status : String) : Bool :=
  [StatusPending, StatusCompleted, StatusFailed].any (fun v => status == v)

/-- `OrderService.UpdateOrderStatus`: validate the target status, read the
existing order (propagating `OrderNotFound`), then save it with the new
status. -/
def UpdateOrderStatus (db : DB) (id : Nat) (status : String) :
    Except OrderError DB :=
  if ¬ isValidStatus status then
    .error (.validationError ("Invalid order status: " ++ status))
  else
    match GetByID db id with
    | .error e => .error e
    | .ok existingOrder => .ok (Update db { existingOrder with status := status })

/-- `OrderService.DeleteOrder`: read the order first (propagating
`OrderNotFound`), then delete it. -/
def DeleteOrder (db : DB) (id : Nat) : Except OrderError DB :=
  match GetByID db id with
  | .error e => .error e
  | .ok _ => Delete db id

/-!
Concurrency model for `CreateOrder`.  The repository performs the event
read with a plain `SELECT` (no `FOR UPDATE`, no locking clause anywhere in
the code base), the write is an unconditional absolute-value `UPDATE`, and
the transaction runs at the store's default isolation (read committed in
PostgreSQL): concurrent transactions' plain reads do not block, each read
sees the latest committed state, and commits serialize on the row write
lock.  A transaction is therefore two atomic steps against the shared
state: (1) the snapshot read `GetEventWithTx`, and (2) the
validate-insert-update-commit of the transactional body, computed from that
snapshot exactly as in `createOrderTx` (aborting commits nothing).
-/

/-- Arguments of one concurrent `CreateOrder` call. -/
structure TxnCall where
  userID : Nat
  quantity : Int
  orderId : Nat
  createdAt : Nat
  deriving DecidableEq, Repr

/-- Progress of one in-flight transaction: not yet read, holding its
snapshot of the event, or finished with `CreateOrder`'s result. -/
inductive TxnPhase where
  | notStarted
  | readDone (snapshot : EventInfo)
  | finished (result : Except OrderError Order)
  deriving Repr

/-- Shared database plus the progress of the two concurrent calls. -/
structure ConcState where
  db : DB
  phase1 : TxnPhase
  phase2 : TxnPhase
  deriving Repr

/-- One atomic step of a transaction under read committed: the snapshot
read, or the commit computed from the snapshot by the body of
`createOrderTx` (status check, availability check against the SNAPSHOT,
insert, absolute-value ticket update). -/
def stepTxn (eventID : Nat) (c : TxnCall) (db : DB) :
    TxnPhase → TxnPhase × DB
  | .notStarted =>
    match GetEventWithTx db eventID with
    | .error e => (.finished (.error e), db)
    | .ok snapshot => (.readDone snapshot, db)
  | .readDone snapshot =>
    if snapshot.status ≠ "ACTIVE" then
      (.finished (.error (.eventNotActive eventID snapshot.status)), db)
    else if snapshot.availableTickets < c.quantity then
      (.finished (.error (.insufficientTickets c.quantity snapshot.availableTickets)), db)
    else
      let newOrder := mkPendingOrder c.userID eventID c.quantity
        snapshot.ticketPrice c.orderId c.createdAt
      let db1 : DB := { db with orders := db.orders ++ [newOrder] }
      let evs2 := updateEventAvailable db1.events eventID
        (snapshot.availableTickets - c.quantity) c.createdAt
      (.finished (.ok newOrder), { db1 with events := evs2 })
  | .finished r => (.finished r, db)

/-- Schedule step: `false` steps the first call, `true` the second. -/
def stepSchedule (eventID : Nat) (c1 c2 : TxnCall) (s : ConcState) :
    Bool → ConcState
  | false =>
    let r := stepTxn eventID c1 s.db s.phase1
    { db := r.2, phase1 := r.1, phase2 := s.phase2 }
  | true =>
    let r := stepTxn eventID c2 s.db s.phase2
    { db := r.2, phase1 := s.phase1, phase2 := r.1 }

/-- Run a whole interleaving of the two concurrent calls. -/
def runSchedule (eventID : Nat) (c1 c2 : TxnCall) :
    List Bool → ConcState → ConcState
  | [], s => s
  | b :: rest, s => runSchedule eventID c1 c2 rest (stepSchedule eventID c1 c2 s b)

/-- Fields of an event row other than `available_tickets` and the
gorm-auto-stamped `updated_at` coincide. -/
def SameExceptAvailableUpdatedAt (a b : Event) : Prop :=
  b.id = a.id ∧ b.venueId = a.venueId ∧ b.organizerId = a.organizerId ∧
  b.title = a.title ∧ b.description = a.description ∧
  b.eventDate = a.eventDate ∧ b.ticketPrice = a.ticketPrice ∧
  b.totalTickets = a.totalTickets ∧ b.status = a.status ∧
  b.createdAt = a.createdAt

/-- Spec's running example event: `total_tickets=10`, `available_tickets=10`,
`ticket_price=25.00`, `status=ACTIVE`. -/
def specEvent : Event :=
  { id := 1, venueId := 2, organizerId := 3, title := "Summer Concert",
    description := "live music", eventDate := 20240815, ticketPrice := 25,
    availableTickets := 10, totalTickets := 10, status := "ACTIVE",
    createdAt := 1, updatedAt := 1 }

/-- Database holding only the spec's example event. -/
def specDB : DB := { events := [specEvent], orders := [] }

/-- A cancelled event with plenty of tickets, for the status-check cases. -/
def cancelledEvent : Event :=
  { id := 4, venueId := 2, organizerId := 3, title := "Cancelled Show",
    description := "", eventDate := 20240901, ticketPrice := 10,
    availableTickets := 50, totalTickets := 50, status := "CANCELLED",
    createdAt := 1, updatedAt := 1 }

/-- An active event with 7 remaining tickets, for the insufficiency cases. -/
def lowEvent : Event :=
  { id := 5, venueId := 2, organizerId := 3, title := "Nearly Sold Out",
    description := "", eventDate := 20240910, ticketPrice := 25,
    availableTickets := 7, totalTickets := 10, status := "ACTIVE",
    createdAt := 1, updatedAt := 1 }

/-- Database for the validation-cascade scenarios: a cancelled event and a
nearly-sold-out active event; no event has id 99. -/
def errDB : DB := { events := [cancelledEvent, lowEvent], orders := [] }

/-- One persisted order (user 1, event 1, order id 5), for the read-path
scenarios. -/
def sampleOrder : Order :=
  { id := 5, userId := 1, eventId := 1, quantity := 2, totalAmount := 50,
    status := "PENDING", createdAt := 2 }

/-- Database with one order, used to query for absent ids/users/events. -/
def oneOrderDB : DB := { events := [specEvent], orders := [sampleOrder] }

/-- Event with a single remaining ticket, target of the oversell race. -/
def oversellEvent : Event :=
  { id := 1, venueId := 2, organizerId := 3, title := "Last Ticket",
    description := "", eventDate := 20240815, ticketPrice := 25,
    availableTickets := 1, totalTickets := 1, status := "ACTIVE",
    createdAt := 1, updatedAt := 1 }

/-- Initial state of the race: one event with one ticket, no orders. -/
def oversellDB : DB := { events := [oversellEvent], orders := [] }

/-- First concurrent buyer: one ticket. -/
def buyerCall1 : TxnCall :=
  { userID := 10, quantity := 1, orderId := 100, createdAt := 5 }

/-- Second concurrent buyer: one ticket. -/
def buyerCall2 : TxnCall :=
  { userID := 11, quantity := 1, orderId := 101, createdAt := 6 }

/-- The racy interleaving: both transactions perform their plain
(non-locking) event read before either commits, then both commit — the
schedule read committed permits because the `SELECT` takes no row lock. -/
def oversellRun : ConcState :=
  runSchedule 1 buyerCall1 buyerCall2 [false, true, false, true]
    { db := oversellDB, phase1 := .notStarted, phase2 := .notStarted }


/-!  Helper lemmas about the embedded operations. -/

/-- The ticket update changes what `findEventIn` returns only in its
`availableTickets` and `updatedAt` fields. -/
theorem findEventIn_updateEventAvailable (events : List Event) (eventID : Nat)
    (n : Int) (now : Nat) :
    findEventIn (updateEventAvailable events eventID n now) eventID =
      (findEventIn events eventID).map
        (fun e => { e with availableTickets := n, updatedAt := now }) := by
  induction events with
  | nil => rfl
  | cons a l ih =>
    by_cases h : a.id = eventID
    · simp [findEventIn, updateEventAvailable, List.find?_cons, h]
    · simp only [findEventIn, updateEventAvailable, List.map_cons] at ih ⊢
      rw [List.find?_cons, List.find?_cons]
      have h1 : ((if a.id == eventID then
          { a with availableTickets := n, updatedAt := now }
          else a).id == eventID) = false := by simp [h]
      have h2 : (a.id == eventID) = false := by simp [h]
      rw [h1, h2]
      exact ih

/-- A found event row witnesses `List.any` over the id predicate. -/
theorem any_of_findEventIn (events : List Event) (eventID : Nat) (ev : Event)
    (h : findEventIn events eventID = some ev) :
    events.any (fun e => e.id == eventID) = true := by
  unfold findEventIn at h
  have hmem : ev ∈ events := List.mem_of_find?_eq_some h
  have hp := List.find?_some h
  exact List.any_eq_true.mpr ⟨ev, hmem, hp⟩

/-- Inversion of a successful `GetEventWithTx`. -/
theorem GetEventWithTx_ok (db : DB) (eventID : Nat) (info : EventInfo)
    (h : GetEventWithTx db eventID = .ok info) :
    ∃ ev, findEventIn db.events eventID = some ev ∧ info = toEventInfo ev := by
  unfold GetEventWithTx at h
  cases hf : findEventIn db.events eventID with
  | none => rw [hf] at h; simp at h
  | some e =>
    rw [hf] at h
    refine ⟨e, rfl, ?_⟩
    injection h with h
    exact h.symm

/-- Inversion of a successful `CreateWithTx`. -/
theorem CreateWithTx_ok (db : DB) (o : Order) (f : Bool) (db' : DB)
    (h : CreateWithTx db o f = .ok db') :
    db' = { db with orders := db.orders ++ [o] } := by
  unfold CreateWithTx at h
  split at h
  · simp at h
  · injection h with h
    exact h.symm

/-- Inversion of a successful `UpdateEventTicketsWithTx`. -/
theorem UpdateEventTicketsWithTx_ok (db : DB) (eventID : Nat) (n : Int)
    (now : Nat) (f : Bool) (db' : DB)
    (h : UpdateEventTicketsWithTx db eventID n now f = .ok db') :
    db' = { db with events := updateEventAvailable db.events eventID n now } := by
  unfold UpdateEventTicketsWithTx at h
  split at h
  · simp at h
  · split at h
    · injection h with h
      exact h.symm
    · simp at h

/-- Inversion of a successful transactional body: the event row exists, is
`ACTIVE`, has enough tickets, the returned order is the pending order built
from it, and the new state appends that order and rewrites the ticket
count. -/
theorem createOrderTx_ok_shape (db : DB) (userID eventID : Nat)
    (quantity : Int) (newOrderId createdAt : Nat) (insF updF : Bool)
    (db2 : DB) (o : Order) (ops : List StorageOp)
    (h : createOrderTx db userID eventID quantity newOrderId createdAt insF updF
        = (.ok (db2, o), ops)) :
    ∃ ev, findEventIn db.events eventID = some ev ∧
      ev.status = "ACTIVE" ∧ ¬ ev.availableTickets < quantity ∧
      o = mkPendingOrder userID eventID quantity ev.ticketPrice newOrderId createdAt ∧
      db2 = { events := updateEventAvailable db.events eventID
                (ev.availableTickets - quantity) createdAt,
              orders := db.orders ++ [o] } := by
  unfold createOrderTx at h
  split at h
  · simp at h
  · rename_i info heq
    obtain ⟨ev, hfind, hinfo⟩ := GetEventWithTx_ok db eventID info heq
    subst hinfo
    split at h
    · simp at h
    · split at h
      · simp at h
      · rename_i hst hav
        split at h
        · simp at h
        · rename_i db1 hins
          split at h
          · simp at h
          · rename_i db2x hupd
            have hdb1 := CreateWithTx_ok _ _ _ _ hins
            have hdb2 := UpdateEventTicketsWithTx_ok _ _ _ _ _ _ hupd
            subst hdb1
            subst hdb2
            simp only [Prod.mk.injEq, Except.ok.injEq] at h
            obtain ⟨⟨hdbeq, hoeq⟩, -⟩ := h
            subst hoeq
            refine ⟨ev, hfind, ?_, ?_, rfl, ?_⟩
            · have := not_not.mp hst
              simpa [toEventInfo] using this
            · simpa [toEventInfo] using hav
            · exact hdbeq.symm

/-- Rollback: whenever `CreateOrder` returns an error, the database is the
one it started from (gorm's `Transaction` rolls the body back). -/
theorem createOrder_error_db (db : DB) (userID eventID : Nat) (quantity : Int)
    (newOrderId createdAt : Nat) (insF updF : Bool) (e : OrderError)
    (h : (CreateOrder db userID eventID quantity newOrderId createdAt insF updF).result
        = .error e) :
    (CreateOrder db userID eventID quantity newOrderId createdAt insF updF).db = db := by
  unfold CreateOrder at h ⊢
  by_cases hq : quantity ≤ 0
  · rw [if_pos hq]
  · rw [if_neg hq] at h ⊢
    generalize createOrderTx db userID eventID quantity newOrderId createdAt
        insF updF = r at h ⊢
    obtain ⟨res, ops⟩ := r
    cases res with
    | ok p =>
      obtain ⟨db2, o⟩ := p
      exact Except.noConfusion h
    | error e2 => rfl

/-- A fault-free `UpdateEventTicketsWithTx` against an existing event row
succeeds and rewrites exactly the ticket column. -/
theorem UpdateEventTicketsWithTx_success (db : DB) (eventID : Nat) (n : Int)
    (now : Nat) (ev : Event)
    (hfind : findEventIn db.events eventID = some ev) :
    UpdateEventTicketsWithTx db eventID n now false =
      .ok { db with events := updateEventAvailable db.events eventID n now } := by
  unfold UpdateEventTicketsWithTx
  simp [any_of_findEventIn _ _ _ hfind]

/-- A fault-free `CreateOrder` against an existing `ACTIVE` event with
enough tickets returns the pending order, appends it to the orders table,
rewrites the event's ticket count, and performs exactly the
read-insert-update trace inside the transaction. -/
theorem createOrder_success (db : DB) (userID eventID : Nat) (quantity : Int)
    (newOrderId createdAt : Nat) (ev : Event)
    (hq : 0 < quantity)
    (hfind : findEventIn db.events eventID = some ev)
    (hact : ev.status = "ACTIVE")
    (hav : ¬ ev.availableTickets < quantity) :
    CreateOrder db userID eventID quantity newOrderId createdAt false false =
      { result := .ok (mkPendingOrder userID eventID quantity ev.ticketPrice
          newOrderId createdAt),
        db := { events := updateEventAvailable db.events eventID
                  (ev.availableTickets - quantity) createdAt,
                orders := db.orders ++ [mkPendingOrder userID eventID quantity
                  ev.ticketPrice newOrderId createdAt] },
        ops := [.beginTx, .readEvent eventID, .insertOrder newOrderId,
                .updateEventTickets eventID (ev.availableTickets - quantity)] } := by
  have hq' : ¬ quantity ≤ 0 := not_le.mpr hq
  have hst : ¬ (toEventInfo ev).status ≠ "ACTIVE" := by simp [toEventInfo, hact]
  have hav' : ¬ (toEventInfo ev).availableTickets < quantity := by
    simpa [toEventInfo] using hav
  unfold CreateOrder createOrderTx GetEventWithTx
  rw [hfind]
  simp only [if_neg hq', if_neg hst, if_neg hav']
  simp [CreateWithTx, UpdateEventTicketsWithTx_success, hfind, toEventInfo]

/-- The ticket update relates every row to its original: all fields other
than `availableTickets` and the auto-stamped `updatedAt` are untouched. -/
theorem forall₂_updateEventAvailable (events : List Event) (eventID : Nat)
    (n : Int) (now : Nat) :
    List.Forall₂ SameExceptAvailableUpdatedAt events
      (updateEventAvailable events eventID n now) := by
  induction events with
  | nil => exact List.Forall₂.nil
  | cons a l ih =>
    simp only [updateEventAvailable, List.map_cons]
    refine List.Forall₂.cons ?_ ?_
    · by_cases h : a.id = eventID <;> simp [SameExceptAvailableUpdatedAt, h]
    · simpa [updateEventAvailable] using ih

/-- With unique primary keys, any member row with the looked-up id is the
row `findEventIn` returns. -/
theorem findEventIn_unique (events : List Event) (eventID : Nat) (ev e : Event)
    (hnd : (events.map (fun x => x.id)).Nodup)
    (hfind : findEventIn events eventID = some ev)
    (he : e ∈ events) (hid : e.id = eventID) : e = ev := by
  unfold findEventIn at hfind
  have hmem : ev ∈ events := List.mem_of_find?_eq_some hfind
  have hp := List.find?_some hfind
  have hevid : ev.id = eventID := by simpa using hp
  exact List.inj_on_of_nodup_map hnd he hmem (by rw [hid, hevid])

/-- Inversion of a successful `CreateOrder`: quantity was positive, the
event row exists, is `ACTIVE` and had enough tickets, the returned order is
the pending order built from it, and the new state appends that order and
rewrites the event's ticket count. -/
theorem createOrder_ok_shape (db : DB) (userID eventID : Nat) (quantity : Int)
    (newOrderId createdAt : Nat) (insF updF : Bool) (o : Order)
    (h : (CreateOrder db userID eventID quantity newOrderId createdAt insF updF).result
        = .ok o) :
    ∃ ev, findEventIn db.events eventID = some ev ∧
      ev.status = "ACTIVE" ∧ ¬ ev.availableTickets < quantity ∧ ¬ quantity ≤ 0 ∧
      o = mkPendingOrder userID eventID quantity ev.ticketPrice newOrderId createdAt ∧
      (CreateOrder db userID eventID quantity newOrderId createdAt insF updF).db =
        { events := updateEventAvailable db.events eventID
            (ev.availableTickets - quantity) createdAt,
          orders := db.orders ++ [o] } := by
  unfold CreateOrder at h ⊢
  by_cases hq : quantity ≤ 0
  · rw [if_pos hq] at h
    exact Except.noConfusion h
  · rw [if_neg hq] at h ⊢
    generalize htx : createOrderTx db userID eventID quantity newOrderId createdAt
        insF updF = r at h ⊢
    obtain ⟨res, ops⟩ := r
    cases res with
    | error e2 => exact Except.noConfusion h
    | ok p =>
      obtain ⟨db2, o2⟩ := p
      have ho : o2 = o := Except.ok.inj h
      subst ho
      obtain ⟨ev, hfind, hact, hav, hoeq, hdb⟩ :=
        createOrderTx_ok_shape db userID eventID quantity newOrderId createdAt
          insF updF db2 o2 ops htx
      exact ⟨ev, hfind, hact, hav, hq, hoeq, hdb⟩

/-!  The claims. -/

/-- Claim C2: whenever `CreateOrder` returns an error — for any reason,
including a storage failure of the order insert or of the event-tickets
update inside the transactional body — no new Order row is persisted and
the event rows (hence `available_tickets`) are unchanged: the insert and
the decrement commit together or not at all. -/
theorem c2_atomicity_on_failure (db : DB) (userID eventID : Nat)
    (quantity : Int) (newOrderId createdAt : Nat)
    (insertFails updateFails : Bool) (e : OrderError)
    (h : (CreateOrder db userID eventID quantity newOrderId createdAt
        insertFails updateFails).result = .error e) :
    (CreateOrder db userID eventID quantity newOrderId createdAt
        insertFails updateFails).db.orders = db.orders ∧
    (CreateOrder db userID eventID quantity newOrderId createdAt
        insertFails updateFails).db.events = db.events := by
  rw [createOrder_error_db db userID eventID quantity newOrderId createdAt
    insertFails updateFails e h]
  exact ⟨rfl, rfl⟩

/-- Witness for C2: a failing order insert (fault flag on) aborts the whole
transaction — the error surfaces and neither table changed. -/
theorem c2_atomicity_on_failure_witness :
    (CreateOrder specDB 7 1 3 42 9 true false).result =
      .error .orderCreationFailed ∧
    (CreateOrder specDB 7 1 3 42 9 true false).db.orders = specDB.orders ∧
    (CreateOrder specDB 7 1 3 42 9 true false).db.events = specDB.events :=
  ⟨rfl,
   (c2_atomicity_on_failure specDB 7 1 3 42 9 true false .orderCreationFailed rfl).1,
   (c2_atomicity_on_failure specDB 7 1 3 42 9 true false .orderCreationFailed rfl).2⟩

/-- Claim C3: for every call with strictly positive quantity against an
existing `ACTIVE` event with `available_tickets ≥ quantity`, `CreateOrder`
succeeds and returns exactly one new pending order with the requested
quantity and `total_amount = ticket_price * quantity`, and the event's
`available_tickets` decreases by exactly `quantity`. -/
theorem c3_success_postcondition (db : DB) (userID eventID : Nat)
    (quantity : Int) (newOrderId createdAt : Nat) (ev : Event)
    (hq : 0 < quantity)
    (hfind : findEventIn db.events eventID = some ev)
    (hact : ev.status = "ACTIVE")
    (hav : quantity ≤ ev.availableTickets) :
    (CreateOrder db userID eventID quantity newOrderId createdAt false false).result
      = .ok (mkPendingOrder userID eventID quantity ev.ticketPrice newOrderId createdAt) ∧
    (mkPendingOrder userID eventID quantity ev.ticketPrice newOrderId createdAt).quantity
      = quantity ∧
    (mkPendingOrder userID eventID quantity ev.ticketPrice newOrderId createdAt).totalAmount
      = ev.ticketPrice * (quantity : Rat) ∧
    (mkPendingOrder userID eventID quantity ev.ticketPrice newOrderId createdAt).status
      = StatusPending ∧
    (CreateOrder db userID eventID quantity newOrderId createdAt false false).db.orders
      = db.orders ++ [mkPendingOrder userID eventID quantity ev.ticketPrice newOrderId createdAt] ∧
    findEventIn (CreateOrder db userID eventID quantity newOrderId createdAt false false).db.events
        eventID
      = some { ev with availableTickets := ev.availableTickets - quantity, updatedAt := createdAt } := by
  have hav' : ¬ ev.availableTickets < quantity := not_lt.mpr hav
  rw [createOrder_success db userID eventID quantity newOrderId createdAt ev hq hfind hact hav']
  refine ⟨rfl, rfl, rfl, rfl, rfl, ?_⟩
  show findEventIn (updateEventAvailable db.events eventID
      (ev.availableTickets - quantity) createdAt) eventID
    = some { ev with availableTickets := ev.availableTickets - quantity, updatedAt := createdAt }
  rw [findEventIn_updateEventAvailable, hfind]
  rfl

/-- Witness for C3, the spec's running example: 10 tickets at price 25,
buying 3 yields the pending order with amount 75 and leaves 7 tickets. -/
theorem c3_success_postcondition_witness :
    (CreateOrder specDB 7 1 3 42 9 false false).result =
      .ok (mkPendingOrder 7 1 3 specEvent.ticketPrice 42 9) ∧
    (mkPendingOrder 7 1 3 specEvent.ticketPrice 42 9).quantity = 3 ∧
    (mkPendingOrder 7 1 3 specEvent.ticketPrice 42 9).totalAmount =
      specEvent.ticketPrice * ((3 : Int) : Rat) ∧
    (mkPendingOrder 7 1 3 specEvent.ticketPrice 42 9).status = StatusPending ∧
    (CreateOrder specDB 7 1 3 42 9 false false).db.orders =
      specDB.orders ++ [mkPendingOrder 7 1 3 specEvent.ticketPrice 42 9] ∧
    findEventIn (CreateOrder specDB 7 1 3 42 9 false false).db.events 1 =
      some { specEvent with availableTickets := specEvent.availableTickets - 3, updatedAt := 9 } :=
  c3_success_postcondition specDB 7 1 3 42 9 specEvent (by decide) rfl rfl (by decide)

/-- Claim C6: for every non-positive quantity, `CreateOrder` fails with
`InvalidQuantity` before opening a transaction — the database is untouched
and the storage-operation trace is empty, for every buyer and event id. -/
theorem c6_fail_fast_invalid_quantity (db : DB) (userID eventID : Nat)
    (quantity : Int) (newOrderId createdAt : Nat) (insF updF : Bool)
    (hq : quantity ≤ 0) :
    CreateOrder db userID eventID quantity newOrderId createdAt insF updF =
      { result := .error (.invalidQuantity quantity), db := db, ops := [] } := by
  unfold CreateOrder
  rw [if_pos hq]

/-- Witness for C6 at quantity `0` (the spec's example). -/
theorem c6_fail_fast_invalid_quantity_witness :
    CreateOrder specDB 7 1 0 42 9 false false =
      { result := .error (.invalidQuantity 0), db := specDB, ops := [] } :=
  c6_fail_fast_invalid_quantity specDB 7 1 0 42 9 false false (by decide)

/-- Claim C4: for a database whose event rows have unique ids (the primary
key constraint) and all satisfy `0 ≤ available_tickets ≤ total_tickets`,
any outcome of `CreateOrder` — success or error, including the fault
flags — leaves every event row still satisfying the invariant: the
decrement is guarded by `available_tickets ≥ quantity > 0`. -/
theorem c4_invariant_preserved (db : DB) (userID eventID : Nat)
    (quantity : Int) (newOrderId createdAt : Nat)
    (insertFails updateFails : Bool)
    (hnd : (db.events.map (fun e => e.id)).Nodup)
    (hinv : ∀ ev ∈ db.events,
      0 ≤ ev.availableTickets ∧ ev.availableTickets ≤ ev.totalTickets) :
    ∀ ev' ∈ (CreateOrder db userID eventID quantity newOrderId createdAt
        insertFails updateFails).db.events,
      0 ≤ ev'.availableTickets ∧ ev'.availableTickets ≤ ev'.totalTickets := by
  intro ev' hmem
  cases hres : (CreateOrder db userID eventID quantity newOrderId createdAt
      insertFails updateFails).result with
  | error e =>
    rw [createOrder_error_db db userID eventID quantity newOrderId createdAt
      insertFails updateFails e hres] at hmem
    exact hinv ev' hmem
  | ok o =>
    obtain ⟨ev, hfind, hact, hav, hq, hoeq, hdb⟩ :=
      createOrder_ok_shape db userID eventID quantity newOrderId createdAt
        insertFails updateFails o hres
    rw [hdb] at hmem
    have hmem' : ev' ∈ updateEventAvailable db.events eventID
        (ev.availableTickets - quantity) createdAt := hmem
    obtain ⟨e0, he0, heq⟩ := List.mem_map.mp hmem'
    by_cases hid : e0.id = eventID
    · have he0ev : e0 = ev :=
        findEventIn_unique db.events eventID ev e0 hnd hfind he0 hid
      subst he0ev
      have hev' : ev' = { e0 with availableTickets := e0.availableTickets - quantity, updatedAt := createdAt } := by
        rw [← heq]
        simp [hid]
      obtain ⟨h1, h2⟩ := hinv e0 he0
      rw [hev']
      constructor
      · show (0 : Int) ≤ e0.availableTickets - quantity
        omega
      · show e0.availableTickets - quantity ≤ e0.totalTickets
        omega
    · have hev' : ev' = e0 := by
        rw [← heq]
        simp [hid]
      rw [hev']
      exact hinv e0 he0

/-- Witness for C4: after the spec's example purchase the remaining event
row (7 of 10 tickets, freshly re-stamped `updated_at`) still satisfies the
inventory invariant. -/
theorem c4_invariant_preserved_witness :
    0 ≤ (Event.mk 1 2 3 "Summer Concert" "live music" 20240815 25 7 10
        "ACTIVE" 1 9).availableTickets ∧
    (Event.mk 1 2 3 "Summer Concert" "live music" 20240815 25 7 10
        "ACTIVE" 1 9).availableTickets ≤
      (Event.mk 1 2 3 "Summer Concert" "live music" 20240815 25 7 10
        "ACTIVE" 1 9).totalTickets :=
  c4_invariant_preserved specDB 7 1 3 42 9 false false (by decide) (by decide)
    (Event.mk 1 2 3 "Summer Concert" "live music" 20240815 25 7 10 "ACTIVE" 1 9)
    (by decide)

/-- Claim C5: with positive quantity the checks run in order — missing
event gives `EventNotFound`; an existing non-`ACTIVE` event gives
`EventNotActive` with the status, regardless of `available_tickets`; an
`ACTIVE` event with fewer tickets than requested gives
`InsufficientTickets` carrying the requested and available counts — and in
every case the database is unchanged (no order is created) and only the
event read was performed inside the transaction. -/
theorem c5_validation_cascade (db : DB) (userID eventID : Nat)
    (quantity : Int) (newOrderId createdAt : Nat) (insF updF : Bool)
    (hq : 0 < quantity) :
    (findEventIn db.events eventID = none →
      CreateOrder db userID eventID quantity newOrderId createdAt insF updF =
        { result := .error (.eventNotFound eventID), db := db,
          ops := [.beginTx, .readEvent eventID] }) ∧
    (∀ ev, findEventIn db.events eventID = some ev → ev.status ≠ "ACTIVE" →
      CreateOrder db userID eventID quantity newOrderId createdAt insF updF =
        { result := .error (.eventNotActive eventID ev.status), db := db,
          ops := [.beginTx, .readEvent eventID] }) ∧
    (∀ ev, findEventIn db.events eventID = some ev → ev.status = "ACTIVE" →
      ev.availableTickets < quantity →
      CreateOrder db userID eventID quantity newOrderId createdAt insF updF =
        { result := .error (.insufficientTickets quantity ev.availableTickets),
          db := db, ops := [.beginTx, .readEvent eventID] }) := by
  have hq' : ¬ quantity ≤ 0 := not_le.mpr hq
  refine ⟨?_, ?_, ?_⟩
  · intro hnone
    unfold CreateOrder createOrderTx GetEventWithTx
    rw [hnone]
    simp only [if_neg hq']
  · intro ev hfind hst
    have hst' : (toEventInfo ev).status ≠ "ACTIVE" := by
      simpa [toEventInfo] using hst
    unfold CreateOrder createOrderTx GetEventWithTx
    rw [hfind]
    simp only [if_neg hq', if_pos hst']
    rfl
  · intro ev hfind hact hlt
    have hst' : ¬ (toEventInfo ev).status ≠ "ACTIVE" := by
      simp [toEventInfo, hact]
    have hlt' : (toEventInfo ev).availableTickets < quantity := by
      simpa [toEventInfo] using hlt
    unfold CreateOrder createOrderTx GetEventWithTx
    rw [hfind]
    simp only [if_neg hq', if_neg hst', if_pos hlt']
    rfl

/-- Witness for C5: the three error cases at concrete inputs — no event
with id 99, the `CANCELLED` event 4 with 50 tickets left, and the `ACTIVE`
event 5 with 7 tickets against a request for 8 (failing with
`InsufficientTickets(8, 7)` as in the spec's example). -/
theorem c5_validation_cascade_witness :
    CreateOrder errDB 7 99 1 42 9 false false =
      { result := .error (.eventNotFound 99), db := errDB,
        ops := [.beginTx, .readEvent 99] } ∧
    CreateOrder errDB 7 4 1 42 9 false false =
      { result := .error (.eventNotActive 4 "CANCELLED"), db := errDB,
        ops := [.beginTx, .readEvent 4] } ∧
    CreateOrder errDB 7 5 8 42 9 false false =
      { result := .error (.insufficientTickets 8 7), db := errDB,
        ops := [.beginTx, .readEvent 5] } :=
  ⟨(c5_validation_cascade errDB 7 99 1 42 9 false false (by decide)).1 rfl,
   (c5_validation_cascade errDB 7 4 1 42 9 false false (by decide)).2.1
     cancelledEvent rfl (by decide),
   (c5_validation_cascade errDB 7 5 8 42 9 false false (by decide)).2.2
     lowEvent rfl rfl (by decide)⟩

/-- Claim C8, counterexample: against a database whose single order belongs
to user 1 and event 1, querying orders of user 7 (a buyer with no orders)
and of event 3 (an event with no orders) returns `ok []`, not an
`OrderNotFound` error — gorm's `Find` does not report missing rows. -/
theorem c8_read_absent_counterexample :
    GetOrdersByUserID oneOrderDB 7 = .ok ([] : List Order) ∧
    GetOrdersByEventID oneOrderDB 3 = .ok ([] : List Order) :=
  ⟨rfl, rfl⟩

/-- Claim C8, amended: `GetOrderByID` on a missing order id returns
`OrderNotFound`, while `GetOrdersByUserID` for a buyer with no orders and
`GetOrdersByEventID` for an event with no orders return the empty list with
no error. -/
theorem c8_read_absent (db : DB) (orderId userID eventID : Nat)
    (hord : findOrderIn db.orders orderId = none)
    (hu : ∀ o ∈ db.orders, o.userId ≠ userID)
    (he : ∀ o ∈ db.orders, o.eventId ≠ eventID) :
    GetOrderByID db orderId = .error (.orderNotFound orderId) ∧
    GetOrdersByUserID db userID = .ok ([] : List Order) ∧
    GetOrdersByEventID db eventID = .ok ([] : List Order) := by
  refine ⟨?_, ?_, ?_⟩
  · unfold GetOrderByID GetByID
    rw [hord]
  · have hfil : db.orders.filter (fun o => o.userId == userID) = [] :=
      List.filter_eq_nil_iff.mpr (fun o ho => by simpa using hu o ho)
    unfold GetOrdersByUserID GetByUserID
    rw [hfil]
  · have hfil : db.orders.filter (fun o => o.eventId == eventID) = [] :=
      List.filter_eq_nil_iff.mpr (fun o ho => by simpa using he o ho)
    unfold GetOrdersByEventID GetByEventID
    rw [hfil]

/-- Witness for the amended C8 at a concrete database with one order
(id 5, user 1, event 1): order id 9, user 7 and event 3 are all absent. -/
theorem c8_read_absent_witness :
    GetOrderByID oneOrderDB 9 = .error (.orderNotFound 9) ∧
    GetOrdersByUserID oneOrderDB 7 = .ok ([] : List Order) ∧
    GetOrdersByEventID oneOrderDB 3 = .ok ([] : List Order) :=
  c8_read_absent oneOrderDB 9 7 3 rfl (by decide) (by decide)

/-- Claim C9: `UpdateOrderStatus` rejects every status outside
`{PENDING, COMPLETED, FAILED}` with a `ValidationError`, and for an allowed
status reports `OrderNotFound` when the target order does not exist;
`DeleteOrder` likewise reports `OrderNotFound` for a missing order. -/
theorem c9_status_update_delete_contract (db : DB) (id : Nat)
    (status : String) :
    (isValidStatus status = false →
      UpdateOrderStatus db id status =
        .error (.validationError ("Invalid order status: " ++ status))) ∧
    (isValidStatus status = true → findOrderIn db.orders id = none →
      UpdateOrderStatus db id status = .error (.orderNotFound id)) ∧
    (findOrderIn db.orders id = none →
      DeleteOrder db id = .error (.orderNotFound id)) := by
  refine ⟨?_, ?_, ?_⟩
  · intro hbad
    unfold UpdateOrderStatus
    rw [if_pos (by simp [hbad])]
  · intro hgood hnone
    unfold UpdateOrderStatus
    rw [if_neg (by simp [hgood])]
    unfold GetByID
    rw [hnone]
  · intro hnone
    unfold DeleteOrder GetByID
    rw [hnone]

/-- Witness for C9: status `"SHIPPED"` is rejected, and updating or
deleting the absent order id 9 reports `OrderNotFound`. -/
theorem c9_status_update_delete_contract_witness :
    UpdateOrderStatus oneOrderDB 5 "SHIPPED" =
      .error (.validationError "Invalid order status: SHIPPED") ∧
    UpdateOrderStatus oneOrderDB 9 StatusPending =
      .error (.orderNotFound 9) ∧
    DeleteOrder oneOrderDB 9 = .error (.orderNotFound 9) :=
  ⟨(c9_status_update_delete_contract oneOrderDB 5 "SHIPPED").1 (by decide),
   (c9_status_update_delete_contract oneOrderDB 9 StatusPending).2.1
     (by decide) rfl,
   (c9_status_update_delete_contract oneOrderDB 9 StatusPending).2.2 rfl⟩

/-- Claim C10, counterexample: the event write is not single-column — gorm
v2's `Update` auto-appends the model's `UpdatedAt` (AutoUpdateTime; the
code does not use `UpdateColumn`), so a successful `CreateOrder` also
changes the event's `updated_at`.  Here the spec's example event starts
with `updated_at = 1` and, after a successful purchase at clock 9, the row
carries `updated_at = 9`: a field other than `available_tickets` changed,
refuting the claim as stated. -/
theorem c10_frame_counterexample :
    (CreateOrder specDB 7 1 3 42 9 false false).result =
      .ok (mkPendingOrder 7 1 3 specEvent.ticketPrice 42 9) ∧
    specEvent.updatedAt = 1 ∧
    (findEventIn (CreateOrder specDB 7 1 3 42 9 false false).db.events 1).map
        (fun e => e.updatedAt) = some 9 :=
  ⟨rfl, rfl, rfl⟩

/-- Claim C10, amended (implicit frame property): a successful
`CreateOrder` modifies only the event's `available_tickets` and its
gorm-auto-stamped `updated_at`; the event's id, title, ticket_price,
total_tickets, status, and every other field are unchanged, because the
inventory write is the `Update("available_tickets", ...)` call (whose SET
clause gorm extends with `updated_at` only). -/
theorem c10_frame_on_event (db : DB) (userID eventID : Nat) (quantity : Int)
    (newOrderId createdAt : Nat) (insF updF : Bool) (o : Order)
    (h : (CreateOrder db userID eventID quantity newOrderId createdAt
        insF updF).result = .ok o) :
    List.Forall₂ SameExceptAvailableUpdatedAt db.events
      (CreateOrder db userID eventID quantity newOrderId createdAt
        insF updF).db.events := by
  obtain ⟨ev, hfind, hact, hav, hq, hoeq, hdb⟩ :=
    createOrder_ok_shape db userID eventID quantity newOrderId createdAt
      insF updF o h
  rw [hdb]
  exact forall₂_updateEventAvailable db.events eventID
    (ev.availableTickets - quantity) createdAt

/-- Witness for the amended C10 at the spec's example purchase. -/
theorem c10_frame_on_event_witness :
    List.Forall₂ SameExceptAvailableUpdatedAt specDB.events
      (CreateOrder specDB 7 1 3 42 9 false false).db.events :=
  c10_frame_on_event specDB 7 1 3 42 9 false false
    (mkPendingOrder 7 1 3 specEvent.ticketPrice 42 9) rfl

/-- Claim C1 (the code violates it): the no-oversell property demands that
with `available_tickets = 1` two concurrent one-ticket `CreateOrder` calls
yield exactly one success and one `InsufficientTickets`, achieved via a
locking read, a conditional update, or serializable isolation with retry.
The repository instead reads the event with a plain non-locking `First`,
writes the absolute ticket count computed from that read, and configures no
isolation level or retry; under the resulting read-committed semantics the
interleaving in which both transactions read before either commits is
allowed, and in it BOTH calls succeed: two orders are persisted against the
single ticket (and the second absolute-value write masks the lost update by
leaving `available_tickets = 0`). -/
theorem c1_no_oversell_race :
    oversellEvent.availableTickets = 1 ∧
    oversellRun.phase1 = .finished (.ok (mkPendingOrder 10 1 1 25 100 5)) ∧
    oversellRun.phase2 = .finished (.ok (mkPendingOrder 11 1 1 25 101 6)) ∧
    oversellRun.db.orders.length = 2 ∧
    (findEventIn oversellRun.db.events 1).map (fun e => e.availableTickets)
      = some 0 :=
  ⟨rfl, rfl, rfl, rfl, rfl⟩
